import Mathlib

/-!
Verification of the libdebug command-line configuration code
(`src/libdebug/dcmdarg.cpp`): resolution of the enabled-levels bitmask
from raw command-line arguments, and propagation of the resolved
configuration to every logger registered in the process-wide domain map.

The C++ source is shallowly embedded below: machine bitmasks become `Nat`
with explicit widths where overflow matters, `gboolean` becomes `Bool`,
`gint` becomes `Int`, and the registry mutation loop becomes a pure map
over an explicit registry value.
-/

namespace LibDebug

namespace debug_level

/-- Modelled from the spec: `dflags.h` is not part of the sources; the spec
describes `LevelSet` as a bitmask over five ordered severity levels
`dump < info < warn < error < fatal`, so the levels are modelled as five
distinct single bits. -/
def dump : Nat := 1

/-- Modelled from the spec: second severity bit (see `dump`). -/
def info : Nat := 2

/-- Modelled from the spec: third severity bit (see `dump`). -/
def warn : Nat := 4

/-- Modelled from the spec: fourth severity bit (see `dump`). -/
def error : Nat := 8

/-- Modelled from the spec: fifth severity bit (see `dump`). -/
def fatal : Nat := 16

/-- Modelled from the spec: the sentinel `none` constant (no bits). -/
def none : Nat := 0

/-- Modelled from the spec: the sentinel `all` constant (all five bits). -/
def all : Nat := dump ||| info ||| warn ||| error ||| fatal

end debug_level

namespace debug_format

/-- Modelled from the spec: `dflags.h` is not part of the sources; the spec
says format flags "include an independent color bit", so the color flag is
modelled as one dedicated bit, distinct from any other format bit. -/
def color : Nat := 8

end debug_format

/-- Number of bits of the C type `unsigned long` used by
`format &= ~(unsigned long)debug_format::color` in the source. -/
def ulong_bits : Nat := 64

/-- Embedding of `struct DebugCmdArgs` with its non-Windows, non-debug-build
default member initializers (`dcmdarg.cpp`, lines 35-56). -/
structure DebugCmdArgs where
  verbose : Bool := false
  quiet : Bool := false
  verbosity_level : Int := 3
  debug_levels : List String := []
  debug_colorize : Bool := true
  levels_enabled : Nat := debug_level.none
deriving DecidableEq

/-- Embedding of `inline DebugCmdArgs* get_debug_get_args_holder()`: the
default-constructed argument holder. -/
def get_debug_get_args_holder : DebugCmdArgs := {}

/-- Modelled from the spec: the logger handle type of `dstate.h` is not part
of the sources; the spec says each logger exposes `setEnabled(bool)` and
`getFormat()/setFormat(flags)`, so a logger is modelled as its enabled flag
and its format-flags word. -/
structure Logger where
  enabled : Bool
  format : Nat
deriving DecidableEq

/-- Modelled from the spec: the registry of `dstate.h` is not part of the
sources; the spec describes it as a mapping from domain name to a mapping
from level bit to logger handle, modelled as an association list of
association lists. -/
abbrev DomainMap : Type := List (String × List (Nat × Logger))

/-- Embedding of the explicit-levels branch of `debug_internal_post_parse_func`
(`dcmdarg.cpp`, lines 108-119): starting from `debug_level::none`, OR in the
bit of each of the five level names found by `std::find` in `debug_levels`. -/
def explicit_levels_or (l : List String) : Nat :=
  let r : Nat := debug_level.none
  let r := r ||| (if l.contains "dump" then debug_level.dump else debug_level.none)
  let r := r ||| (if l.contains "info" then debug_level.info else debug_level.none)
  let r := r ||| (if l.contains "warn" then debug_level.warn else debug_level.none)
  let r := r ||| (if l.contains "error" then debug_level.error else debug_level.none)
  let r := r ||| (if l.contains "fatal" then debug_level.fatal else debug_level.none)
  r

/-- Embedding of the numeric-fallback branch of `debug_internal_post_parse_func`
(`dcmdarg.cpp`, lines 127-134): threshold comparisons on `verbosity_level`. -/
def numeric_fallback (v : Int) : Nat :=
  let r : Nat := debug_level.none
  let r := if v > 0 then r ||| debug_level.fatal else r
  let r := if v > 1 then r ||| debug_level.error else r
  let r := if v > 2 then r ||| debug_level.warn else r
  let r := if v > 3 then r ||| debug_level.info else r
  let r := if v > 4 then r ||| debug_level.dump else r
  r

/-- Embedding of the four-branch level resolution of
`debug_internal_post_parse_func` (`dcmdarg.cpp`, lines 106-135). -/
def resolve_levels (args : DebugCmdArgs) : Nat :=
  if args.debug_levels ≠ [] then
    explicit_levels_or args.debug_levels
  else if args.quiet then
    debug_level.none
  else if args.verbose then
    debug_level.all
  else
    numeric_fallback args.verbosity_level

/-- Embedding of the per-logger body of the propagation loop of
`debug_internal_post_parse_func` (`dcmdarg.cpp`, lines 143-153):
`set_enabled(bool(levels_enabled_ulong & iter2.first))`, then read the
format, set or clear the color bit, and write the format back. -/
def update_logger (levels_enabled : Nat) (color_enabled : Bool) (bit : Nat)
    (lg : Logger) : Logger :=
  let lg := { lg with enabled := decide ((levels_enabled &&& bit) ≠ 0) }
  let format := lg.format
  let format :=
    if color_enabled then
      format ||| debug_format.color
    else
      format &&& ((2 ^ ulong_bits - 1) ^^^ debug_format.color)
  { lg with format := format }

/-- Embedding of the double iteration over the domain map in
`debug_internal_post_parse_func` (`dcmdarg.cpp`, lines 143-155). -/
def apply_config (levels_enabled : Nat) (color_enabled : Bool)
    (dm : DomainMap) : DomainMap :=
  dm.map (fun dom =>
    (dom.1, dom.2.map (fun ent => (ent.1, update_logger levels_enabled color_enabled ent.1 ent.2))))

/-- Embedding of the whole of `debug_internal_post_parse_func`
(`dcmdarg.cpp`, lines 102-158): store the resolved levels into the argument
holder, then propagate them and the color flag to every registered logger;
the function always returns `true`. -/
def debug_internal_post_parse_func (args : DebugCmdArgs) (dm : DomainMap) :
    DebugCmdArgs × DomainMap × Bool :=
  let args := { args with levels_enabled := resolve_levels args }
  let color_enabled := args.debug_colorize
  let dm := apply_config args.levels_enabled color_enabled dm
  (args, dm, true)

/-- Modelled from the spec: `hz/string_algo.h` is not part of the sources;
the spec says the levels callback "must split on commas and ignore empty
segments", and `hz::string_split` is called with the existing
`debug_levels` vector as its target container, to which the split segments
are appended. -/
def string_split (s : String) (delim : Char) (target : List String)
    (skip_empty : Bool) : List String :=
  let segments := s.split (fun c => c = delim)
  target ++ (if skip_empty then segments.filter (fun seg => seg ≠ "") else segments)

/-- Embedding of `debug_internal_parse_levels` (`dcmdarg.cpp`, lines 87-98):
a null value returns `false` at once; otherwise the comma-split segments of
the value are appended to `debug_levels` and the callback returns `true`. -/
def debug_internal_parse_levels (value : Option String) (args : DebugCmdArgs) :
    Bool × DebugCmdArgs :=
  match value with
  | Option.none => (false, args)
  | Option.some v =>
      (true, { args with debug_levels := string_split v ',' args.debug_levels true })

/-- Specification-side description of the explicit-levels branch: the OR of
the bits of the recognized names appearing in the list, one fold step per
list element (so duplicates and unrecognized names are treated by the fold,
not by membership tests). -/
def level_name_bit (s : String) : Nat :=
  if s = "dump" then debug_level.dump
  else if s = "info" then debug_level.info
  else if s = "warn" then debug_level.warn
  else if s = "error" then debug_level.error
  else if s = "fatal" then debug_level.fatal
  else debug_level.none

/-- Specification-side OR of the bits of all recognized names in a list. -/
def levels_of_names (l : List String) : Nat :=
  l.foldr (fun s acc => level_name_bit s ||| acc) debug_level.none

/-! ### Helper lemmas -/

/-- Unfolding `levels_of_names` on a cons cell. -/
lemma levels_of_names_cons (s : String) (t : List String) :
    levels_of_names (s :: t) = level_name_bit s ||| levels_of_names t := rfl

/-- The membership-based OR computed by the explicit-levels branch absorbs one
more list element exactly as one fold step over `level_name_bit`. -/
lemma explicit_levels_or_cons (s : String) (t : List String) :
    explicit_levels_or (s :: t) = level_name_bit s ||| explicit_levels_or t := by
  by_cases hd : s = "dump"
  · subst hd
    simp [explicit_levels_or, level_name_bit]
    by_cases h1 : "dump" ∈ t <;> by_cases h2 : "info" ∈ t <;> by_cases h3 : "warn" ∈ t <;>
      by_cases h4 : "error" ∈ t <;> by_cases h5 : "fatal" ∈ t <;>
      simp [h1, h2, h3, h4, h5, debug_level.dump, debug_level.info, debug_level.warn,
        debug_level.error, debug_level.fatal, debug_level.none]
  by_cases hi : s = "info"
  · subst hi
    simp [explicit_levels_or, level_name_bit]
    by_cases h1 : "dump" ∈ t <;> by_cases h2 : "info" ∈ t <;> by_cases h3 : "warn" ∈ t <;>
      by_cases h4 : "error" ∈ t <;> by_cases h5 : "fatal" ∈ t <;>
      simp [h1, h2, h3, h4, h5, debug_level.dump, debug_level.info, debug_level.warn,
        debug_level.error, debug_level.fatal, debug_level.none]
  by_cases hw : s = "warn"
  · subst hw
    simp [explicit_levels_or, level_name_bit]
    by_cases h1 : "dump" ∈ t <;> by_cases h2 : "info" ∈ t <;> by_cases h3 : "warn" ∈ t <;>
      by_cases h4 : "error" ∈ t <;> by_cases h5 : "fatal" ∈ t <;>
      simp [h1, h2, h3, h4, h5, debug_level.dump, debug_level.info, debug_level.warn,
        debug_level.error, debug_level.fatal, debug_level.none]
  by_cases he : s = "error"
  · subst he
    simp [explicit_levels_or, level_name_bit]
    by_cases h1 : "dump" ∈ t <;> by_cases h2 : "info" ∈ t <;> by_cases h3 : "warn" ∈ t <;>
      by_cases h4 : "error" ∈ t <;> by_cases h5 : "fatal" ∈ t <;>
      simp [h1, h2, h3, h4, h5, debug_level.dump, debug_level.info, debug_level.warn,
        debug_level.error, debug_level.fatal, debug_level.none]
  by_cases hf : s = "fatal"
  · subst hf
    simp [explicit_levels_or, level_name_bit]
    by_cases h1 : "dump" ∈ t <;> by_cases h2 : "info" ∈ t <;> by_cases h3 : "warn" ∈ t <;>
      by_cases h4 : "error" ∈ t <;> by_cases h5 : "fatal" ∈ t <;>
      simp [h1, h2, h3, h4, h5, debug_level.dump, debug_level.info, debug_level.warn,
        debug_level.error, debug_level.fatal, debug_level.none]
  · simp [explicit_levels_or, level_name_bit, hd, hi, hw, he, hf, Ne.symm hd, Ne.symm hi,
      Ne.symm hw, Ne.symm he, Ne.symm hf, debug_level.none]

/-- The membership-based OR of the explicit-levels branch computes the fold-based
OR of the bits of all recognized names. -/
lemma explicit_levels_or_eq (l : List String) :
    explicit_levels_or l = levels_of_names l := by
  induction l with
  | nil => rfl
  | cons s t ih => rw [explicit_levels_or_cons, levels_of_names_cons, ih]

/-- Exhaustive value table of the numeric fallback, indexed by the clamped
verbosity level. -/
lemma numeric_fallback_cases (v : Int) :
    (v ≤ 0 ∧ numeric_fallback v = 0) ∨ (v = 1 ∧ numeric_fallback v = 16) ∨
    (v = 2 ∧ numeric_fallback v = 24) ∨ (v = 3 ∧ numeric_fallback v = 28) ∨
    (v = 4 ∧ numeric_fallback v = 30) ∨ (5 ≤ v ∧ numeric_fallback v = 31) := by
  by_cases h1 : v > 0 <;> by_cases h2 : v > 1 <;> by_cases h3 : v > 2 <;>
    by_cases h4 : v > 3 <;> by_cases h5 : v > 4 <;>
    simp [numeric_fallback, h1, h2, h3, h4, h5, debug_level.dump, debug_level.info,
      debug_level.warn, debug_level.error, debug_level.fatal, debug_level.none] <;>
    omega

/-- First branch of the resolution: explicit levels present. -/
lemma resolve_levels_explicit (args : DebugCmdArgs) (h : args.debug_levels ≠ []) :
    resolve_levels args = explicit_levels_or args.debug_levels := by
  simp [resolve_levels, h]

/-- Second branch of the resolution: no explicit levels, quiet set. -/
lemma resolve_levels_quiet (args : DebugCmdArgs) (h0 : args.debug_levels = [])
    (h1 : args.quiet = true) : resolve_levels args = debug_level.none := by
  simp [resolve_levels, h0, h1]

/-- Third branch of the resolution: no explicit levels, not quiet, verbose set. -/
lemma resolve_levels_verbose (args : DebugCmdArgs) (h0 : args.debug_levels = [])
    (h1 : args.quiet = false) (h2 : args.verbose = true) :
    resolve_levels args = debug_level.all := by
  simp [resolve_levels, h0, h1, h2]

/-- Fourth branch of the resolution: the numeric fallback. -/
lemma resolve_levels_numeric (args : DebugCmdArgs) (h0 : args.debug_levels = [])
    (h1 : args.quiet = false) (h2 : args.verbose = false) :
    resolve_levels args = numeric_fallback args.verbosity_level := by
  simp [resolve_levels, h0, h1, h2]

/-! ### Claims -/

/-- Claim C1: resolution evaluates its four branches in the exact order
(1) explicit levels non-empty, (2) quiet, (3) verbose, (4) numeric fallback;
the branch that fires fully determines the result and the later branches'
inputs are ignored (branch 1 depends only on the level-name list; branches
2 and 3 fix the result outright; branch 4 depends only on the verbosity
level). In particular, with no explicit levels and both quiet and verbose
set, the resolved set is `none`: quiet precedes verbose. -/
theorem C1_branch_order (args args2 : DebugCmdArgs) :
    (args.debug_levels ≠ [] → args.debug_levels = args2.debug_levels →
      resolve_levels args = resolve_levels args2) ∧
    (args.debug_levels = [] → args.quiet = true →
      resolve_levels args = debug_level.none) ∧
    (args.debug_levels = [] → args.quiet = true → args.verbose = true →
      resolve_levels args = debug_level.none) ∧
    (args.debug_levels = [] → args.quiet = false → args.verbose = true →
      resolve_levels args = debug_level.all) ∧
    (args.debug_levels = [] → args.quiet = false → args.verbose = false →
      resolve_levels args = numeric_fallback args.verbosity_level) := by
  refine ⟨?_, ?_, ?_, ?_, ?_⟩
  · intro h he
    rw [resolve_levels_explicit args h, resolve_levels_explicit args2 (he ▸ h), he]
  · intro h0 h1
    exact resolve_levels_quiet args h0 h1
  · intro h0 h1 _
    exact resolve_levels_quiet args h0 h1
  · intro h0 h1 h2
    exact resolve_levels_verbose args h0 h1 h2
  · intro h0 h1 h2
    exact resolve_levels_numeric args h0 h1 h2

/-- Witness for C1: with explicit levels empty and both quiet and verbose set,
resolution yields `none`. -/
theorem C1_branch_order_witness :
    resolve_levels { get_debug_get_args_holder with quiet := true, verbose := true } =
      debug_level.none :=
  (C1_branch_order { get_debug_get_args_holder with quiet := true, verbose := true }
    get_debug_get_args_holder).2.2.1 rfl rfl rfl

/-- Claim C2: with a non-empty explicit-levels list, the resolved set is
exactly the OR of the bits of the recognized names appearing in the list
(computed by `levels_of_names`, one fold step per element, so unrecognized
names contribute nothing and duplicates are idempotent), regardless of the
quiet, verbose and verbosity-level fields, which the result does not
mention. -/
theorem C2_explicit_levels (args : DebugCmdArgs) (h : args.debug_levels ≠ []) :
    resolve_levels args = levels_of_names args.debug_levels := by
  rw [resolve_levels_explicit args h, explicit_levels_or_eq]

/-- Witness for C2: a list with an unrecognized name and a duplicate resolves
to exactly {warn, error}. -/
theorem C2_explicit_levels_witness :
    resolve_levels { get_debug_get_args_holder with
        debug_levels := ["warn", "bogus", "error", "warn"], quiet := true } =
      levels_of_names ["warn", "bogus", "error", "warn"] ∧
    levels_of_names ["warn", "bogus", "error", "warn"] =
      (debug_level.warn ||| debug_level.error) :=
  ⟨C2_explicit_levels { get_debug_get_args_holder with
      debug_levels := ["warn", "bogus", "error", "warn"], quiet := true } (by simp),
   by decide⟩

/-- Claim C3: in the numeric fallback (no explicit levels, not quiet, not
verbose) each severity bit of the resolved set is present exactly when the
verbosity level clears its threshold (fatal > 0, error > 1, warn > 2,
info > 3, dump > 4); the result is strictly nested (each lower-severity bit
implies the next higher one), a verbosity level at most 0 yields `none`,
and one at least 5 yields `all`. -/
theorem C3_numeric_fallback (args : DebugCmdArgs) (h0 : args.debug_levels = [])
    (h1 : args.quiet = false) (h2 : args.verbose = false) :
    ((resolve_levels args &&& debug_level.fatal ≠ 0) ↔ args.verbosity_level > 0) ∧
    ((resolve_levels args &&& debug_level.error ≠ 0) ↔ args.verbosity_level > 1) ∧
    ((resolve_levels args &&& debug_level.warn ≠ 0) ↔ args.verbosity_level > 2) ∧
    ((resolve_levels args &&& debug_level.info ≠ 0) ↔ args.verbosity_level > 3) ∧
    ((resolve_levels args &&& debug_level.dump ≠ 0) ↔ args.verbosity_level > 4) ∧
    ((resolve_levels args &&& debug_level.dump ≠ 0) →
      (resolve_levels args &&& debug_level.info ≠ 0)) ∧
    ((resolve_levels args &&& debug_level.info ≠ 0) →
      (resolve_levels args &&& debug_level.warn ≠ 0)) ∧
    ((resolve_levels args &&& debug_level.warn ≠ 0) →
      (resolve_levels args &&& debug_level.error ≠ 0)) ∧
    ((resolve_levels args &&& debug_level.error ≠ 0) →
      (resolve_levels args &&& debug_level.fatal ≠ 0)) ∧
    (args.verbosity_level ≤ 0 → resolve_levels args = debug_level.none) ∧
    (5 ≤ args.verbosity_level → resolve_levels args = debug_level.all) := by
  rw [resolve_levels_numeric args h0 h1 h2]
  rcases numeric_fallback_cases args.verbosity_level with
    ⟨hv, he⟩ | ⟨hv, he⟩ | ⟨hv, he⟩ | ⟨hv, he⟩ | ⟨hv, he⟩ | ⟨hv, he⟩ <;>
    rw [he] <;>
    refine ⟨?_, ?_, ?_, ?_, ?_, ?_, ?_, ?_, ?_, ?_, ?_⟩ <;>
    first
      | decide
      | (intro h; first | decide | omega | exact absurd h (by decide))
      | (constructor <;> intro h <;> first | decide | omega | exact absurd h (by decide))

/-- Witness for C3: on the default arguments (verbosity level 3) the warn bit
is present, matching the threshold 2 being cleared. -/
theorem C3_numeric_fallback_witness :
    (resolve_levels get_debug_get_args_holder &&& debug_level.warn ≠ 0) ↔
      get_debug_get_args_holder.verbosity_level > 2 :=
  (C3_numeric_fallback get_debug_get_args_holder rfl rfl rfl).2.2.1

/-- The explicit-levels OR sets no bits outside the five defined level bits. -/
lemma explicit_levels_or_and_all (l : List String) :
    explicit_levels_or l &&& debug_level.all = explicit_levels_or l := by
  simp only [explicit_levels_or, debug_level.all]
  by_cases h1 : "dump" ∈ l <;> by_cases h2 : "info" ∈ l <;>
    by_cases h3 : "warn" ∈ l <;> by_cases h4 : "error" ∈ l <;>
    by_cases h5 : "fatal" ∈ l <;>
    simp [h1, h2, h3, h4, h5, debug_level.dump, debug_level.info, debug_level.warn,
      debug_level.error, debug_level.fatal, debug_level.none] <;>
    decide

/-- Claim C6: resolution is total (it is a function on all of `DebugCmdArgs`,
including contradictory flag combinations, out-of-range verbosity levels and
unknown level names) and its result is always a valid LevelSet: masking with
the five defined level bits changes nothing, so no other bit is ever set. -/
theorem C6_total_valid (args : DebugCmdArgs) :
    resolve_levels args &&& debug_level.all = resolve_levels args := by
  by_cases hl : args.debug_levels ≠ []
  · rw [resolve_levels_explicit args hl]
    exact explicit_levels_or_and_all args.debug_levels
  · rw [not_not] at hl
    by_cases hq : args.quiet
    · rw [resolve_levels_quiet args hl hq]
      decide
    · by_cases hv : args.verbose
      · rw [resolve_levels_verbose args hl (by simpa using hq) hv]
        decide
      · rw [resolve_levels_numeric args hl (by simpa using hq) (by simpa using hv)]
        rcases numeric_fallback_cases args.verbosity_level with
          ⟨_, he⟩ | ⟨_, he⟩ | ⟨_, he⟩ | ⟨_, he⟩ | ⟨_, he⟩ | ⟨_, he⟩ <;> rw [he] <;> decide

/-- Verbosity level 0 clears no threshold, so the numeric fallback is empty. -/
lemma numeric_fallback_zero : numeric_fallback 0 = debug_level.none := by decide

/-- The numeric fallback is monotone: a smaller verbosity level yields a
submask of the set for a larger one. -/
lemma numeric_fallback_mono (v1 v2 : Int) (h : v1 ≤ v2) :
    numeric_fallback v1 &&& numeric_fallback v2 = numeric_fallback v1 := by
  rcases numeric_fallback_cases v1 with
    ⟨hv, he⟩ | ⟨hv, he⟩ | ⟨hv, he⟩ | ⟨hv, he⟩ | ⟨hv, he⟩ | ⟨hv, he⟩ <;>
  rcases numeric_fallback_cases v2 with
    ⟨hw, hf⟩ | ⟨hw, hf⟩ | ⟨hw, hf⟩ | ⟨hw, hf⟩ | ⟨hw, hf⟩ | ⟨hw, hf⟩ <;>
  rw [he, hf] <;> first | decide | (exfalso; omega)

/-- Claim C7: in the numeric-fallback branch, resolution is monotone in the
verbosity level — the set resolved for `v1 ≤ v2` is a submask of the set
resolved for `v2` — verbosity level 0 yields `none`, and any verbosity level
at least 5 yields `all`. -/
theorem C7_numeric_monotone (args : DebugCmdArgs) (v1 v2 : Int)
    (h0 : args.debug_levels = []) (h1 : args.quiet = false)
    (h2 : args.verbose = false) (hv : v1 ≤ v2) :
    resolve_levels { args with verbosity_level := v1 } &&&
        resolve_levels { args with verbosity_level := v2 } =
      resolve_levels { args with verbosity_level := v1 } ∧
    resolve_levels { args with verbosity_level := 0 } = debug_level.none ∧
    (5 ≤ v2 → resolve_levels { args with verbosity_level := v2 } = debug_level.all) := by
  rw [resolve_levels_numeric { args with verbosity_level := v1 } h0 h1 h2,
    resolve_levels_numeric { args with verbosity_level := v2 } h0 h1 h2,
    resolve_levels_numeric { args with verbosity_level := 0 } h0 h1 h2]
  refine ⟨numeric_fallback_mono v1 v2 hv, numeric_fallback_zero, fun h5 => ?_⟩
  rcases numeric_fallback_cases v2 with
    ⟨hw, hf⟩ | ⟨hw, hf⟩ | ⟨hw, hf⟩ | ⟨hw, hf⟩ | ⟨hw, hf⟩ | ⟨hw, hf⟩ <;>
    rw [hf] <;> first | decide | (exfalso; omega)

/-- Witness for C7: on the default arguments, verbosity 1 resolves to a
submask of what verbosity 4 resolves to. -/
theorem C7_numeric_monotone_witness :
    resolve_levels { get_debug_get_args_holder with verbosity_level := 1 } &&&
        resolve_levels { get_debug_get_args_holder with verbosity_level := 4 } =
      resolve_levels { get_debug_get_args_holder with verbosity_level := 1 } :=
  (C7_numeric_monotone get_debug_get_args_holder 1 4 rfl rfl rfl (by decide)).1

/-- For a single level bit, the nonzero test the code performs agrees with
bit membership in the mask. -/
lemma and_single_bit (levels b : Nat)
    (hb : b = debug_level.dump ∨ b = debug_level.info ∨ b = debug_level.warn ∨
      b = debug_level.error ∨ b = debug_level.fatal) :
    (levels &&& b ≠ 0) ↔ levels &&& b = b := by
  have hpow : ∃ k, b = 2 ^ k := by
    rcases hb with rfl | rfl | rfl | rfl | rfl
    · exact ⟨0, rfl⟩
    · exact ⟨1, rfl⟩
    · exact ⟨2, rfl⟩
    · exact ⟨3, rfl⟩
    · exact ⟨4, rfl⟩
  obtain ⟨k, rfl⟩ := hpow
  rw [Nat.and_two_pow]
  cases htb : levels.testBit k <;>
    simp [htb, (Nat.two_pow_pos k).ne, (Nat.two_pow_pos k).ne']

/-- Claim C4: after propagation, every logger in every domain of the registry
is enabled exactly when that logger's own severity bit is present in the
resolved LevelSet — not merely when the set is non-empty — for every registry
contents and every resolved set. -/
theorem C4_enabled_iff (levels : Nat) (color : Bool) (dm : DomainMap)
    (p : String × List (Nat × Logger)) (hp : p ∈ apply_config levels color dm)
    (q : Nat × Logger) (hq : q ∈ p.2)
    (hbit : q.1 = debug_level.dump ∨ q.1 = debug_level.info ∨ q.1 = debug_level.warn ∨
      q.1 = debug_level.error ∨ q.1 = debug_level.fatal) :
    q.2.enabled = true ↔ levels &&& q.1 = q.1 := by
  obtain ⟨p0, _, rfl⟩ := List.mem_map.1 hp
  obtain ⟨e0, _, rfl⟩ := List.mem_map.1 hq
  simp only [update_logger]
  rw [decide_eq_true_iff]
  exact and_single_bit levels e0.1 hbit

/-- Witness for C4: with resolved set {warn, error, fatal} a warn logger is
enabled, and the iff instantiates at its bit. -/
theorem C4_enabled_iff_witness :
    (Logger.mk true 8).enabled = true ↔ 28 &&& 4 = 4 :=
  C4_enabled_iff 28 true [("default", [(4, Logger.mk false 0)])]
    ("default", [(4, Logger.mk true 8)]) (by decide)
    (4, Logger.mk true 8) (by decide) (Or.inr (Or.inr (Or.inl rfl)))

/-- Claim C5: the per-logger step of propagation reads the logger's format
flags and writes back a word whose color bit equals `color_enabled` while
every other format bit keeps the value it had before the call (the format
word fits the `unsigned long` the code masks with). -/
theorem C5_format_color_only (levels : Nat) (color_enabled : Bool) (bit : Nat)
    (lg : Logger) (hfmt : lg.format < 2 ^ ulong_bits) :
    ((update_logger levels color_enabled bit lg).format.testBit 3 = color_enabled) ∧
    (∀ k, k ≠ 3 →
      (update_logger levels color_enabled bit lg).format.testBit k = lg.format.testBit k) := by
  have hc : debug_format.color = 2 ^ 3 := rfl
  have hm : (2 ^ ulong_bits - 1 : Nat) = 2 ^ 64 - 1 := rfl
  cases color_enabled <;>
    simp only [update_logger, hc, hm, if_true, if_false, Bool.false_eq_true, ite_true, ite_false]
  · constructor
    · rw [Nat.testBit_and, Nat.testBit_xor, Nat.testBit_two_pow_sub_one,
        Nat.testBit_two_pow]
      simp
    · intro k hk
      rw [Nat.testBit_and, Nat.testBit_xor, Nat.testBit_two_pow_sub_one,
        Nat.testBit_two_pow]
      by_cases h64 : k < 64
      · simp [h64, Ne.symm hk]
      · have hk64 : ulong_bits ≤ k := by
          simp only [ulong_bits]
          omega
        have hf : lg.format.testBit k = false := by
          refine Nat.testBit_eq_false_of_lt (lt_of_lt_of_le hfmt ?_)
          exact Nat.pow_le_pow_right (by omega) hk64
        simp [hf]
  · constructor
    · rw [Nat.testBit_or, Nat.testBit_two_pow]
      simp
    · intro k hk
      rw [Nat.testBit_or, Nat.testBit_two_pow]
      simp [Ne.symm hk]

/-- Witness for C5: clearing the color bit of format word 15 leaves bit 2 as
it was. -/
theorem C5_format_color_only_witness :
    (update_logger 0 false 1 (Logger.mk true 15)).format.testBit 2 =
      (Logger.mk true 15).format.testBit 2 :=
  (C5_format_color_only 0 false 1 (Logger.mk true 15) (by decide)).2 2 (by decide)

/-- The per-logger propagation step is idempotent. -/
lemma update_logger_idem (levels : Nat) (color : Bool) (bit : Nat) (lg : Logger) :
    update_logger levels color bit (update_logger levels color bit lg) =
      update_logger levels color bit lg := by
  cases color <;> simp [update_logger, Nat.and_assoc, Nat.or_assoc]

/-- Claim C8: propagation is idempotent — applying the pass twice with the
same resolved configuration leaves every logger's enabled flag and format
flags exactly as applying it once does, for every registry state. -/
theorem C8_apply_idempotent (levels : Nat) (color : Bool) (dm : DomainMap) :
    apply_config levels color (apply_config levels color dm) =
      apply_config levels color dm := by
  simp only [apply_config, List.map_map]
  refine List.map_congr_left fun dom _ => ?_
  simp only [Function.comp]
  rw [List.map_map]
  refine congrArg _ (List.map_congr_left fun ent _ => ?_)
  simp [Function.comp, update_logger_idem]

/-- Claim C9: the levels-parsing callback returns failure on a null value
without touching the argument holder; on a non-null value it returns success
and appends the comma-split segments to the existing list without clearing
it, so a sequence of invocations accumulates the concatenation of all
segments parsed so far. -/
theorem C9_parse_levels_accumulate (args : DebugCmdArgs) :
    debug_internal_parse_levels Option.none args = (false, args) ∧
    (∀ v, (debug_internal_parse_levels (Option.some v) args).1 = true ∧
      (debug_internal_parse_levels (Option.some v) args).2.debug_levels =
        args.debug_levels ++ string_split v ',' [] true) ∧
    (∀ vs : List String,
      (vs.foldl (fun a v => (debug_internal_parse_levels (Option.some v) a).2)
          args).debug_levels =
        args.debug_levels ++ (vs.map (fun v => string_split v ',' [] true)).flatten) := by
  refine ⟨rfl, fun v => ⟨rfl, ?_⟩, fun vs => ?_⟩
  · simp [debug_internal_parse_levels, string_split]
  · induction vs generalizing args with
    | nil => simp
    | cons v t ih =>
        rw [List.foldl_cons, ih]
        simp [debug_internal_parse_levels, string_split, List.append_assoc]

/-- ORing a bit in and then masking with that bit yields the bit. -/
lemma or_and_self (a b : Nat) : (a ||| b) &&& b = b := by
  apply Nat.eq_of_testBit_eq
  intro k
  rw [Nat.testBit_and, Nat.testBit_or]
  cases b.testBit k <;> simp

/-- Claim C10: on the default-constructed argument holder of a non-Windows,
non-debug build (verbose and quiet false, verbosity level 3, no explicit
levels, colorize on), resolution followed by propagation stores exactly
{warn, error, fatal} as the enabled set and sets the color bit in every
registered logger's format flags. -/
theorem C10_default_args (dm : DomainMap) :
    (debug_internal_post_parse_func get_debug_get_args_holder dm).1.levels_enabled =
      (debug_level.warn ||| debug_level.error ||| debug_level.fatal) ∧
    ∀ p ∈ (debug_internal_post_parse_func get_debug_get_args_holder dm).2.1,
      ∀ q ∈ p.2, q.2.format &&& debug_format.color = debug_format.color := by
  refine ⟨rfl, ?_⟩
  intro p hp q hq
  have hp2 : p ∈ apply_config (resolve_levels get_debug_get_args_holder) true dm := hp
  obtain ⟨p0, _, rfl⟩ := List.mem_map.1 hp2
  obtain ⟨e0, _, rfl⟩ := List.mem_map.1 hq
  simp [update_logger, or_and_self]

/-- Witness for C10: a registered info logger with format 5 ends with the
color bit set (format 13). -/
theorem C10_default_args_witness :
    (Logger.mk false 13).format &&& debug_format.color = debug_format.color :=
  (C10_default_args [("default", [(debug_level.info, Logger.mk true 5)])]).2
    ("default", [(debug_level.info, Logger.mk false 13)]) (by decide)
    (debug_level.info, Logger.mk false 13) (by decide)

end LibDebug
